import Mathlib

/-!
Shallow embedding of the Dicentis OSC bridge (src/backup.py) and proofs of
the specification claims about it.

Conventions of the embedding:
* Python strings are Lean `String`; key lookups with a default fold the
  default into the record field (a JSON object missing the key is modelled
  by the default value of the field).
* Python dicts that the code iterates are modelled as insertion-ordered
  association lists; inserting an existing key replaces the value in place,
  as Python dicts do.
* Side effects are made explicit: a handler returns the list of session
  requests it sends; the poll tick returns the list of OSC messages it
  publishes; raising is modelled by `Except` where the code can raise.
-/

namespace Dicentis

/-- Python str.strip on the ASCII fragment: drop leading and trailing
whitespace characters. -/
def pyStrip (s : String) : String :=
  ⟨((s.data.dropWhile Char.isWhitespace).reverse.dropWhile Char.isWhitespace).reverse⟩

/-- Python str.upper on the ASCII fragment. -/
def pyUpper (s : String) : String :=
  ⟨s.data.map Char.toUpper⟩

/-- Python truthiness-based `x or y` for strings, where x may be a missing
key (modelled as the empty string, which is falsy exactly like None is). -/
def pyOrStr (x y : String) : String :=
  if x = "" then y else x

/-- Bool test that `small` is a contiguous run at the front of `big`. -/
def listPre : List Char → List Char → Bool
  | [], _ => true
  | _ :: _, [] => false
  | a :: as, b :: bs => a = b && listPre as bs

/-- Bool test that `small` occurs contiguously inside `big`. -/
def listSub (small : List Char) : List Char → Bool
  | [] => small.isEmpty
  | b :: bs => listPre small (b :: bs) || listSub small bs

/-- Python substring test: `a in b`. -/
def pyIn (a b : String) : Bool :=
  listSub a.data b.data

/-- Insertion-ordered dict insert: replacing an existing key keeps its
position, a new key goes to the back (Python dict assignment). -/
def dictInsert {α β : Type} [DecidableEq α] (k : α) (v : β) :
    List (α × β) → List (α × β)
  | [] => [(k, v)]
  | (k1, v1) :: rest =>
      if k1 = k then (k, v) :: rest else (k1, v1) :: dictInsert k v rest

/-- A raw seat record of a getseats response, fields read with
seat.get(key, default): a missing key is the default value. -/
structure RawSeat where
  seatName : String
  screenLine : String
  seatId : String
  seatedParticipantId : String
  hideSeat : Bool
deriving DecidableEq

/-- A value of self.seat_info after process_seats_info: only seatName and
screenLine are stored there; the participantId key is absent, modelled as
the empty string (seat_data.get of the absent key is falsy, like None). -/
structure SeatData where
  seatName : String
  screenLine : String
  participantId : String
deriving DecidableEq

/-- A value of self.seat_details: the full record kept for mic control. -/
structure SeatDetails where
  seatName : String
  screenLine : String
  seatId : String
  participantId : String
deriving DecidableEq

/-- The two dicts process_seats_info populates. -/
structure SeatDir where
  seat_info : List (Nat × SeatData)
  seat_details : List (String × SeatDetails)
deriving DecidableEq

/-- Digit characters of a seat name, in original order:
filter(str.isdigit, seat_name). -/
def extractDigits (s : String) : List Char :=
  s.data.filter Char.isDigit

/-- Python int of the concatenated digit characters; int of the empty
string raises ValueError, modelled as none. -/
def parseSeatNumber (s : String) : Option Nat :=
  let ds := extractDigits s
  if ds.isEmpty then none
  else some (ds.foldl (fun n c => 10 * n + (c.toNat - 48)) 0)

/-- One iteration of the for loop of process_seats_info: skip when the
name is empty or the record is hidden, skip when int raises, otherwise
store under the seat number and under the screen line. -/
def processSeatRecord (dir : SeatDir) (seat : RawSeat) : SeatDir :=
  if seat.seatName = "" ∨ seat.hideSeat then dir
  else
    match parseSeatNumber seat.seatName with
    | none => dir
    | some seat_number =>
        { seat_info := dictInsert seat_number
            ⟨seat.seatName, seat.screenLine, ""⟩ dir.seat_info
          seat_details := dictInsert seat.screenLine
            ⟨seat.seatName, seat.screenLine, seat.seatId, seat.seatedParticipantId⟩
            dir.seat_details }

/-- process_seats_info: rebuild both dicts from the seats list of the
response. -/
def process_seats_info (seats : List RawSeat) : SeatDir :=
  seats.foldl processSeatRecord ⟨[], []⟩

/-- The enhanced seat data returned by get_seat_info_by_screen_line:
a copy of the seat_info value with participantId replaced by
seat_data.get of participantId, or else the seatName. -/
structure EnhancedSeat where
  seatName : String
  screenLine : String
  participantId : String
deriving DecidableEq

/-- enhanced_seat_data construction inside get_seat_info_by_screen_line. -/
def enhanceSeat (sd : SeatData) : EnhancedSeat :=
  ⟨sd.seatName, sd.screenLine, pyOrStr sd.participantId sd.seatName⟩

/-- The exact-match predicate of the first pass of
get_seat_info_by_screen_line. -/
def exactMatch (screen_line : String) (kv : Nat × SeatData) : Bool :=
  pyUpper (pyStrip kv.2.screenLine) == pyUpper (pyStrip screen_line)

/-- The bidirectional substring predicate of the partial-match fallback. -/
def partialMatch (screen_line : String) (kv : Nat × SeatData) : Bool :=
  pyIn (pyUpper (pyStrip kv.2.screenLine)) (pyUpper (pyStrip screen_line)) ||
  pyIn (pyUpper (pyStrip screen_line)) (pyUpper (pyStrip kv.2.screenLine))

/-- get_seat_info_by_screen_line: first pass compares stripped, uppercased
screen lines for equality; the fallback pass accepts either containment
direction; both passes return the first hit in dict iteration order. -/
def get_seat_info_by_screen_line (dir : SeatDir) (screen_line : String) :
    Option EnhancedSeat :=
  match dir.seat_info.find? (exactMatch screen_line) with
  | some kv => some (enhanceSeat kv.2)
  | none =>
      match dir.seat_info.find? (partialMatch screen_line) with
      | some kv => some (enhanceSeat kv.2)
      | none => none

/-- One entry of a discussion list; microphoneState is read with default
"off" where the code supplies that default. -/
structure DiscussionEntry where
  screenLine : String
  microphoneState : String
deriving DecidableEq

/-- The parameters.discussionList payload of a GetDiscussionList
response, as cached in self.last_discussion_data. -/
structure DiscussionData where
  discussionList : List DiscussionEntry
deriving DecidableEq

/-- get_current_mic_state: no cached data means off; otherwise the state
of the first discussion entry whose screenLine equals the query exactly,
and off when none matches. -/
def get_current_mic_state (last : Option DiscussionData) (screen_line : String) :
    String :=
  match last with
  | none => "off"
  | some d =>
      match d.discussionList.find? (fun e => e.screenLine == screen_line) with
      | some e => e.microphoneState
      | none => "off"

/-- A microphone request sent over the session connection. -/
inductive MicRequest where
  | activate (seatid : String)
  | deactivate (seatid : String)
deriving DecidableEq

/-- The mutable bridge state the handlers read: the seat directory, the
cached last discussion data, and whether self.websocket is set. -/
structure BridgeState where
  dir : SeatDir
  last_discussion_data : Option DiscussionData
  websocket : Bool
deriving DecidableEq

/-- activate_microphone: simulate (send nothing) when the websocket is
unset; resolve the seat id as participantId or else seatName; send
nothing when that id is empty; otherwise send one ActivateMicrophone
request carrying it. The returned list is the requests sent. -/
def activate_microphone (websocket : Bool) (seat_info : EnhancedSeat) :
    List MicRequest :=
  if websocket = false then []
  else
    let seat_id := pyOrStr seat_info.participantId seat_info.seatName
    if seat_id = "" then []
    else [MicRequest.activate seat_id]

/-- deactivate_microphone, symmetric to activate_microphone. -/
def deactivate_microphone (websocket : Bool) (seat_info : EnhancedSeat) :
    List MicRequest :=
  if websocket = false then []
  else
    let seat_id := pyOrStr seat_info.participantId seat_info.seatName
    if seat_id = "" then []
    else [MicRequest.deactivate seat_id]

/-- handle_mic_activate_wrapper: args[0] if args else None, return after
logging when that is missing or empty; otherwise look the seat up and
activate; the handler never mutates the bridge state and catches every
exception, so it is a total function returning the requests sent. -/
def handle_mic_activate_wrapper (st : BridgeState) (args : List String) :
    BridgeState × List MicRequest :=
  let screen_line := args.headD ""
  if screen_line = "" then (st, [])
  else
    match get_seat_info_by_screen_line st.dir screen_line with
    | some seat_info => (st, activate_microphone st.websocket seat_info)
    | none => (st, [])

/-- handle_mic_deactivate_wrapper, symmetric to the activate wrapper. -/
def handle_mic_deactivate_wrapper (st : BridgeState) (args : List String) :
    BridgeState × List MicRequest :=
  let screen_line := args.headD ""
  if screen_line = "" then (st, [])
  else
    match get_seat_info_by_screen_line st.dir screen_line with
    | some seat_info => (st, deactivate_microphone st.websocket seat_info)
    | none => (st, [])

/-- handle_mic_control: same argument guard and seat lookup, then read
the cached mic state for the screen line and deactivate when it is on,
otherwise activate. -/
def handle_mic_control (st : BridgeState) (args : List String) :
    BridgeState × List MicRequest :=
  let screen_line := args.headD ""
  if screen_line = "" then (st, [])
  else
    match get_seat_info_by_screen_line st.dir screen_line with
    | none => (st, [])
    | some seat_info =>
        if get_current_mic_state st.last_discussion_data screen_line = "on" then
          (st, deactivate_microphone st.websocket seat_info)
        else
          (st, activate_microphone st.websocket seat_info)

/-- A parsed server response; .get with a default is folded into the
fields, so a response whose parameters lack a key carries that field's
default (empty string or empty list). -/
structure WireResponse where
  operation : String
  message : String
  seats : List RawSeat
  discussionList : List DiscussionEntry
deriving DecidableEq

/-- The fallback value get_seats_info returns when json.loads raises:
the parameters hold an empty seats list and nothing else. -/
def defaultSeatsResponse : WireResponse :=
  ⟨"", "", [], []⟩

/-- get_seats_info: an unparsable payload degrades to the default
response; a parsed payload is returned as is, and the Bool records
whether the error-tagged branch logged a retrieval failure. The
function itself never raises. -/
def get_seats_info (raw : Option WireResponse) : WireResponse × Bool :=
  match raw with
  | none => (defaultSeatsResponse, false)
  | some r => (r, r.operation == "error")

/-- retrieve_seat_info: feed whatever get_seats_info returned into
process_seats_info. -/
def retrieve_seat_info (raw : Option WireResponse) : SeatDir × Bool :=
  let p := get_seats_info raw
  (process_seats_info p.1.seats, p.2)

/-- login: raises on an unparsable response (json.loads re-raised) and
raises RuntimeError on an error-tagged response; otherwise returns. -/
def login (raw : Option WireResponse) : Except String Unit :=
  match raw with
  | none => Except.error "JSONDecodeError"
  | some r =>
      if r.operation = "error" then
        Except.error ("Login failed: " ++ pyOrStr r.message "Unknown login error")
      else Except.ok ()

/-- The connect sequence after the transport is up: login, then retrieve
and process the seats; only login can raise here. -/
def connect (loginRaw seatsRaw : Option WireResponse) :
    Except String (SeatDir × Bool) :=
  match login loginRaw with
  | Except.error e => Except.error e
  | Except.ok _ => Except.ok (retrieve_seat_info seatsRaw)

/-- get_discussion_list: an unparsable payload degrades to an empty
discussion list; otherwise the parsed list is returned. Never raises. -/
def get_discussion_list (raw : Option WireResponse) : DiscussionData :=
  match raw with
  | none => ⟨[]⟩
  | some r => ⟨r.discussionList⟩

/-- One outbound OSC message. -/
structure OscMessage where
  address : String
  value : String
deriving DecidableEq

/-- The screen lines collected by the poll body: those discussion entries
whose microphoneState is on, in snapshot order. -/
def active_mic_screen_lines (d : DiscussionData) : List String :=
  (d.discussionList.filter (fun e => e.microphoneState == "on")).map
    (fun e => e.screenLine)

/-- The OSC messages one poll tick publishes: one message to the mic_on
custom variable carrying the first active screen line, or none at all
when no mic is on. -/
def poll_tick_publishes (d : DiscussionData) : List OscMessage :=
  match active_mic_screen_lines d with
  | [] => []
  | v :: _ => [⟨"/custom-variable/mic_on/value", v⟩]

/-- One iteration of the while loop of main_loop: fetch the discussion
list, cache it in last_discussion_data, then publish. The raw argument
is the wire payload of this tick (none when unparsable). -/
def main_loop_tick (st : BridgeState) (raw : Option WireResponse) :
    BridgeState × List OscMessage :=
  let discussion_data := get_discussion_list raw
  ({ st with last_discussion_data := some discussion_data },
   poll_tick_publishes discussion_data)

/-- An event on the single session connection: the send of a request or
the receipt of its response, tagged with the operation. -/
inductive WireEvent where
  | send (op : String)
  | recv (op : String)
deriving DecidableEq

/-- The connection events of one request/response exchange as coded in
activate_microphone, deactivate_microphone, get_seats_info and
get_discussion_list: one send awaited, then one recv awaited. -/
def exchangeEvents (op : String) : List WireEvent :=
  [WireEvent.send op, WireEvent.recv op]

/-- The traces the runtime admits for two event sequences running on
distinct execution contexts: main_loop awaits its exchanges on the main
thread's event loop while run_async_task executes command exchanges on
the dedicated async_loop thread, and each await is a scheduling point,
so the two sequences interleave arbitrarily while each keeps its own
order. -/
inductive Shuffle : List WireEvent → List WireEvent → List WireEvent → Prop
  | nil : Shuffle [] [] []
  | left {a l r t} : Shuffle l r t → Shuffle (a :: l) r (a :: t)
  | right {b l r t} : Shuffle l r t → Shuffle l (b :: r) (b :: t)

/-- Number of sends in a trace. -/
def sendCount : List WireEvent → Nat
  | [] => 0
  | WireEvent.send _ :: t => sendCount t + 1
  | WireEvent.recv _ :: t => sendCount t

/-- Number of receives in a trace. -/
def recvCount : List WireEvent → Nat
  | [] => 0
  | WireEvent.send _ :: t => recvCount t
  | WireEvent.recv _ :: t => recvCount t + 1

/-- Requests in flight after a trace prefix: sends not yet answered. -/
def inFlight (tr : List WireEvent) : Nat :=
  sendCount tr - recvCount tr

/-- The MALTA sample seat record of the end-to-end scenarios, carrying a
non-empty seatedParticipantId. -/
def maltaSeat : RawSeat :=
  ⟨"Seat 3", "MALTA", "id9", "P7", false⟩

/-- The directory built from the single MALTA record. -/
def maltaDir : SeatDir :=
  process_seats_info [maltaSeat]

/-- A cached snapshot in which the MALTA mic is on. -/
def maltaOn : DiscussionData :=
  ⟨[⟨"MALTA", "on"⟩]⟩

/-- Bridge state after connecting with the MALTA seat and caching the
snapshot with its mic on. -/
def maltaState : BridgeState :=
  ⟨maltaDir, some maltaOn, true⟩

/-- If find? returns an element, that element heads the filtered list. -/
theorem find?_head_filter {α : Type} (p : α → Bool) (l : List α) (a : α)
    (h : l.find? p = some a) : ∃ t, l.filter p = a :: t := by
  induction l with
  | nil => simp [List.find?] at h
  | cons b l ih =>
    by_cases hb : p b
    · rw [List.find?_cons_of_pos _ hb] at h
      cases h
      exact ⟨l.filter p, by simp [List.filter_cons_of_pos, hb]⟩
    · rw [List.find?_cons_of_neg _ hb] at h
      obtain ⟨t, ht⟩ := ih h
      exact ⟨t, by simp [List.filter_cons_of_neg, hb, ht]⟩

/-- The base-10 accumulator fold over digit characters computes the
number whose decimal digits are those characters in original order. -/
theorem foldl_digits_eq_ofDigits (ds : List Char) (acc : Nat) :
    ds.foldl (fun n c => 10 * n + (c.toNat - 48)) acc =
      acc * 10 ^ ds.length +
        Nat.ofDigits 10 ((ds.map (fun c => c.toNat - 48)).reverse) := by
  induction ds generalizing acc with
  | nil => simp [Nat.ofDigits]
  | cons c ds ih =>
    simp only [List.foldl_cons, List.map_cons, List.reverse_cons, List.length_cons]
    rw [ih, Nat.ofDigits_append]
    simp only [Nat.ofDigits_singleton, Nat.ofDigits_nil, List.length_reverse,
      List.length_map]
    ring

/-- C1: for a server seat record with the non-empty participantId P7,
a toggle command whose cached mic state is on does issue exactly one
DeactivateMicrophone request, but its seatid is the seatName Seat 3,
not P7 — even though the participantId was received and stored in
seat_details: the lookup reads seat_info, which never holds a
participantId, so the claimed participantId preference cannot occur. -/
theorem C1_seatid_ignores_participantId :
    (process_seats_info [maltaSeat]).seat_details =
      [("MALTA", ⟨"Seat 3", "MALTA", "id9", "P7"⟩)]
    ∧ (handle_mic_control maltaState ["MALTA"]).2 =
      [MicRequest.deactivate "Seat 3"]
    ∧ "Seat 3" ≠ "P7" := by
  decide

/-- C2: in a poll tick whose snapshot parses, if no discussion entry has
its microphone on then nothing is published, and if some entry does then
exactly one OSC message is published, to the mic_on custom variable,
carrying the screen line of the first such entry in snapshot order. -/
theorem C2_poll_publishes_first_active (st : BridgeState) (r : WireResponse) :
    ((∀ e ∈ r.discussionList, e.microphoneState ≠ "on") →
      (main_loop_tick st (some r)).2 = [])
    ∧ (∀ e, r.discussionList.find? (fun x => x.microphoneState == "on") = some e →
      (main_loop_tick st (some r)).2 =
        [⟨"/custom-variable/mic_on/value", e.screenLine⟩]) := by
  constructor
  · intro h
    have hf : r.discussionList.filter (fun e => e.microphoneState == "on") = [] := by
      rw [List.filter_eq_nil_iff]
      intro a ha
      simpa using h a ha
    simp [main_loop_tick, get_discussion_list, poll_tick_publishes,
      active_mic_screen_lines, hf]
  · intro e he
    obtain ⟨t, ht⟩ := find?_head_filter _ _ _ he
    simp [main_loop_tick, get_discussion_list, poll_tick_publishes,
      active_mic_screen_lines, ht]

/-- Witness for C2 at concrete ticks: active screen lines A then B
publish exactly the message carrying A; an all-off snapshot publishes
nothing. -/
theorem C2_witness :
    (main_loop_tick ⟨⟨[], []⟩, none, true⟩
      (some ⟨"", "", [], [⟨"A", "off"⟩]⟩)).2 = []
    ∧ (main_loop_tick ⟨⟨[], []⟩, none, true⟩
      (some ⟨"", "", [], [⟨"A", "on"⟩, ⟨"B", "on"⟩]⟩)).2 =
      [⟨"/custom-variable/mic_on/value", "A"⟩] :=
  ⟨(C2_poll_publishes_first_active ⟨⟨[], []⟩, none, true⟩
      ⟨"", "", [], [⟨"A", "off"⟩]⟩).1 (by decide),
   (C2_poll_publishes_first_active ⟨⟨[], []⟩, none, true⟩
      ⟨"", "", [], [⟨"A", "on"⟩, ⟨"B", "on"⟩]⟩).2 ⟨"A", "on"⟩ (by decide)⟩

/-- C3: a toggle whose screen line resolves to a seat behaves exactly as
the deactivate handler when the cached mic state is on and exactly as
the activate handler otherwise; the cached state defaults to off when no
snapshot is cached or when the screen line is absent from it. -/
theorem C3_toggle_reads_cached_state (st : BridgeState) (sl : String)
    (seat : EnhancedSeat) (hsl : sl ≠ "")
    (hfound : get_seat_info_by_screen_line st.dir sl = some seat) :
    (get_current_mic_state st.last_discussion_data sl = "on" →
      handle_mic_control st [sl] = handle_mic_deactivate_wrapper st [sl]
      ∧ handle_mic_control st [sl] = (st, deactivate_microphone st.websocket seat))
    ∧ (get_current_mic_state st.last_discussion_data sl ≠ "on" →
      handle_mic_control st [sl] = handle_mic_activate_wrapper st [sl]
      ∧ handle_mic_control st [sl] = (st, activate_microphone st.websocket seat))
    ∧ (st.last_discussion_data = none →
      get_current_mic_state st.last_discussion_data sl = "off")
    ∧ (∀ d, st.last_discussion_data = some d →
      (∀ e ∈ d.discussionList, e.screenLine ≠ sl) →
      get_current_mic_state st.last_discussion_data sl = "off") := by
  refine ⟨?_, ?_, ?_, ?_⟩
  · intro hon
    constructor <;>
      simp [handle_mic_control, handle_mic_deactivate_wrapper, hsl, hfound, hon]
  · intro hoff
    constructor <;>
      simp [handle_mic_control, handle_mic_activate_wrapper, hsl, hfound, hoff]
  · intro hnone
    simp [get_current_mic_state, hnone]
  · intro d hd habsent
    have hf : d.discussionList.find? (fun e => e.screenLine == sl) = none := by
      rw [List.find?_eq_none]
      intro e he
      simpa using habsent e he
    simp [get_current_mic_state, hd, hf]

/-- Witness for C3 at the MALTA state: the cached state is on, so toggle
coincides with the deactivate wrapper and issues its request. -/
theorem C3_witness :
    handle_mic_control maltaState ["MALTA"] =
      handle_mic_deactivate_wrapper maltaState ["MALTA"]
    ∧ handle_mic_control maltaState ["MALTA"] =
      (maltaState, deactivate_microphone maltaState.websocket
        ⟨"Seat 3", "MALTA", "Seat 3"⟩) :=
  (C3_toggle_reads_cached_state maltaState "MALTA"
      ⟨"Seat 3", "MALTA", "Seat 3"⟩ (by decide) (by decide)).1 (by decide)

/-- C4: a raw seat record with an empty name or marked hidden leaves the
directory untouched, as does one whose name has no digit characters; any
other record parses to the number whose decimal digits are exactly the
digit characters of the name in original order and is stored under it. -/
theorem C4_seat_record_construction (dir : SeatDir) (s : RawSeat) :
    ((s.seatName = "" ∨ s.hideSeat = true) → processSeatRecord dir s = dir)
    ∧ (extractDigits s.seatName = [] → processSeatRecord dir s = dir)
    ∧ (s.seatName ≠ "" → s.hideSeat = false → extractDigits s.seatName ≠ [] →
      parseSeatNumber s.seatName =
        some (Nat.ofDigits 10
          (((extractDigits s.seatName).map (fun c => c.toNat - 48)).reverse))
      ∧ (processSeatRecord dir s).seat_info =
        dictInsert (Nat.ofDigits 10
            (((extractDigits s.seatName).map (fun c => c.toNat - 48)).reverse))
          ⟨s.seatName, s.screenLine, ""⟩ dir.seat_info) := by
  refine ⟨?_, ?_, ?_⟩
  · intro h
    rcases h with h | h <;> simp [processSeatRecord, h]
  · intro h
    have hp : parseSeatNumber s.seatName = none := by
      simp [parseSeatNumber, h]
    by_cases hn : s.seatName = ""
    · simp [processSeatRecord, hn]
    · simp [processSeatRecord, hn, hp]
  · intro hn hh hd
    have hval : parseSeatNumber s.seatName =
        some (Nat.ofDigits 10
          (((extractDigits s.seatName).map (fun c => c.toNat - 48)).reverse)) := by
      have := foldl_digits_eq_ofDigits (extractDigits s.seatName) 0
      simp only [Nat.zero_mul, Nat.zero_add] at this
      simp [parseSeatNumber, List.isEmpty_iff, hd, this]
    refine ⟨hval, ?_⟩
    simp [processSeatRecord, hn, hh, hval]

/-- Witness for C4: an empty-named record and a digitless record are
skipped; Seat 3 parses to seat number 3 and is stored under it. -/
theorem C4_witness :
    processSeatRecord ⟨[], []⟩ ⟨"", "SL", "", "", false⟩ = ⟨[], []⟩
    ∧ processSeatRecord ⟨[], []⟩ ⟨"NoDigits", "SL", "", "", false⟩ = ⟨[], []⟩
    ∧ parseSeatNumber "Seat 3" =
      some (Nat.ofDigits 10
        (((extractDigits "Seat 3").map (fun c => c.toNat - 48)).reverse)) :=
  ⟨(C4_seat_record_construction ⟨[], []⟩ ⟨"", "SL", "", "", false⟩).1 (Or.inl rfl),
   (C4_seat_record_construction ⟨[], []⟩ ⟨"NoDigits", "SL", "", "", false⟩).2.1
     (by decide),
   ((C4_seat_record_construction ⟨[], []⟩ ⟨"Seat 3", "SL", "", "", false⟩).2.2
     (by decide) rfl (by decide)).1⟩

/-- C5 counterexample: two visible seats store screen lines X and x;
the query x equals the second stored screen line verbatim, yet the
lookup returns the first seat, so the round trip for the second seat
fails as stated. -/
theorem C5_counterexample :
    ((2 : Nat), (⟨"Seat 2", "x", ""⟩ : SeatData)) ∈
      (process_seats_info
        [⟨"Seat 1", "X", "", "", false⟩, ⟨"Seat 2", "x", "", "", false⟩]).seat_info
    ∧ get_seat_info_by_screen_line
        (process_seats_info
          [⟨"Seat 1", "X", "", "", false⟩, ⟨"Seat 2", "x", "", "", false⟩]) "x" =
      some ⟨"Seat 1", "X", "Seat 1"⟩ := by
  decide

/-- C5 amended: when the trimmed, case-folded screen line of a stored
seat is unique in the directory, looking up any query equal to it up to
surrounding whitespace and letter case returns exactly that seat. -/
theorem C5_lookup_roundtrip_unique (dir : SeatDir) (n : Nat) (sd : SeatData)
    (q : String)
    (hmem : (n, sd) ∈ dir.seat_info)
    (hq : pyUpper (pyStrip q) = pyUpper (pyStrip sd.screenLine))
    (huniq : ∀ p ∈ dir.seat_info,
      pyUpper (pyStrip p.2.screenLine) = pyUpper (pyStrip sd.screenLine) →
      p.2 = sd) :
    get_seat_info_by_screen_line dir q = some (enhanceSeat sd) := by
  have hp : exactMatch q (n, sd) = true := by
    simp [exactMatch, hq]
  have hs : (dir.seat_info.find? (exactMatch q)).isSome :=
    List.find?_isSome.mpr ⟨(n, sd), hmem, hp⟩
  obtain ⟨kv, hkv⟩ := Option.isSome_iff_exists.mp hs
  have hkvmem := List.mem_of_find?_eq_some hkv
  have hkvp := List.find?_some hkv
  have hkveq : pyUpper (pyStrip kv.2.screenLine) = pyUpper (pyStrip sd.screenLine) := by
    have : pyUpper (pyStrip kv.2.screenLine) = pyUpper (pyStrip q) := by
      simpa [exactMatch] using hkvp
    rw [this, hq]
  have : kv.2 = sd := huniq kv hkvmem hkveq
  simp [get_seat_info_by_screen_line, hkv, this]

/-- Witness for C5: the MALTA directory looked up with the padded,
lower-case query malta returns the stored MALTA seat. -/
theorem C5_witness :
    get_seat_info_by_screen_line maltaDir "malta " =
      some (enhanceSeat ⟨"Seat 3", "MALTA", ""⟩) :=
  C5_lookup_roundtrip_unique maltaDir 3 ⟨"Seat 3", "MALTA", ""⟩ "malta "
    (by decide) (by decide) (by decide)

/-- C6: after a successful login, a getseats response tagged error (whose
parameters carry a message and no seats list) lets the connect sequence
complete without raising, with the failure recorded by the error branch
and both directory dicts left empty. -/
theorem C6_getseats_error_empty_directory (loginRaw : Option WireResponse)
    (r : WireResponse)
    (hlogin : login loginRaw = Except.ok ())
    (hop : r.operation = "error") (hshape : r.seats = []) :
    connect loginRaw (some r) = Except.ok (⟨[], []⟩, true) := by
  simp [connect, hlogin, retrieve_seat_info, get_seats_info,
    process_seats_info, hop, hshape]

/-- Witness for C6: a concrete successful login followed by a concrete
error-tagged getseats response yields an empty directory, no raise. -/
theorem C6_witness :
    connect (some ⟨"ok", "", [], []⟩) (some ⟨"error", "boom", [], []⟩) =
      Except.ok (⟨[], []⟩, true) :=
  C6_getseats_error_empty_directory (some ⟨"ok", "", [], []⟩)
    ⟨"error", "boom", [], []⟩ rfl rfl rfl

/-- C7: a poll tick whose discussion payload is unparsable caches the
empty discussion list and publishes nothing. -/
theorem C7_unparsable_tick_no_publish (st : BridgeState) :
    main_loop_tick st none =
      ({ st with last_discussion_data := some ⟨[]⟩ }, []) := by
  simp [main_loop_tick, get_discussion_list, poll_tick_publishes,
    active_mic_screen_lines]

/-- C8: the runtime admits a trace of a command exchange and a poll
exchange, each keeping its own send-then-receive order, in which both
sends precede both receives: after the prefix of the two sends, two
requests are in flight on the session connection at once, so the claimed
at-most-one-in-flight serialization does not hold of the code. -/
theorem C8_two_requests_in_flight :
    Shuffle (exchangeEvents "ActivateMicrophone")
      (exchangeEvents "GetDiscussionList")
      [WireEvent.send "ActivateMicrophone", WireEvent.send "GetDiscussionList",
       WireEvent.recv "ActivateMicrophone", WireEvent.recv "GetDiscussionList"]
    ∧ List.IsPrefix
        [WireEvent.send "ActivateMicrophone", WireEvent.send "GetDiscussionList"]
        [WireEvent.send "ActivateMicrophone", WireEvent.send "GetDiscussionList",
         WireEvent.recv "ActivateMicrophone", WireEvent.recv "GetDiscussionList"]
    ∧ inFlight
        [WireEvent.send "ActivateMicrophone", WireEvent.send "GetDiscussionList"] =
        2 := by
  refine ⟨?_, ?_, rfl⟩
  · exact Shuffle.left (Shuffle.right (Shuffle.left (Shuffle.right Shuffle.nil)))
  · exact ⟨[WireEvent.recv "ActivateMicrophone", WireEvent.recv "GetDiscussionList"],
      rfl⟩

/-- C9: an inbound mic message with no arguments, or whose first argument
is the empty string, makes each of the three handlers return after the
logging guard: the bridge state is unchanged and no session request is
sent. -/
theorem C9_missing_argument_noop (st : BridgeState) (args : List String)
    (h : args = [] ∨ args.headD "" = "") :
    handle_mic_control st args = (st, [])
    ∧ handle_mic_activate_wrapper st args = (st, [])
    ∧ handle_mic_deactivate_wrapper st args = (st, []) := by
  rcases args with _ | ⟨a, rest⟩
  · exact ⟨rfl, rfl, rfl⟩
  · have ha : a = "" := by
      rcases h with h | h
      · cases h
      · simpa using h
    subst ha
    exact ⟨rfl, rfl, rfl⟩

/-- Witness for C9: the empty argument list leaves the MALTA state
untouched and sends nothing through any of the three handlers. -/
theorem C9_witness :
    handle_mic_control maltaState [] = (maltaState, [])
    ∧ handle_mic_activate_wrapper maltaState [] = (maltaState, [])
    ∧ handle_mic_deactivate_wrapper maltaState [] = (maltaState, []) :=
  C9_missing_argument_noop maltaState [] (Or.inl rfl)

/-- C10: with the websocket handle unset, activate_microphone and
deactivate_microphone send nothing over the session connection for any
resolved seat, returning after the simulation notice. -/
theorem C10_no_connection_no_request (seat : EnhancedSeat) :
    activate_microphone false seat = []
    ∧ deactivate_microphone false seat = [] := by
  constructor <;> rfl

end Dicentis
